import Mathlib

/-
Verification of the core extraction and testing logic of the Smart Regex
Generator service (src/app.py, class SmartRegexGenerator).

The development shallowly embeds:
  - a pattern engine (compilation and matching) modelling the behaviour of
    the standard pattern library on the dialect subset the application uses:
    literals, escapes, character classes with ranges and negation, the dot,
    anchors, alternation, grouping (capturing and non-capturing), and the
    greedy and lazy quantifiers including counted repetition;
  - the extraction cascade extract_regex_from_response together with its
    helpers looks_like_regex, is_valid_regex and generate_fallback_pattern;
  - the tester test_regex.

Machine strings are modelled as Lean String values; positions are Nat.
Recursive search procedures take an explicit fuel argument that strictly
decreases on every call; the bounds passed at the call sites dominate the
actual recursion depth of the procedures on their inputs.
-/

namespace SmartRegex

/-- Member of a character class of a compiled pattern: a literal character,
an inclusive range, or one of the shorthand classes for digit, word and
whitespace characters. -/
inductive ClsItem where
  | lit (c : Char)
  | range (lo hi : Char)
  | digit
  | word
  | space
deriving DecidableEq

/-- Abstract syntax of compiled patterns for the dialect subset used by the
application. Counted repetition is compiled away into concatenation,
alternative-with-empty chains and the star, preserving greediness; the
Boolean on star records greediness. Group indices are one-based in the
order of opening parentheses, as the engine numbers them. -/
inductive Re where
  | eps
  | lit (c : Char)
  | any
  | cls (neg : Bool) (items : List ClsItem)
  | cat (a b : Re)
  | alt (a b : Re)
  | star (greedy : Bool) (r : Re)
  | group (idx : Nat) (r : Re)
  | bol
  | eol
deriving DecidableEq

/-- Decide whether a character is an ASCII digit. -/
def isDigitChar (c : Char) : Bool :=
  Nat.ble ('0'.toNat) c.toNat && Nat.ble c.toNat ('9'.toNat)

/-- Characters the engine counts as whitespace, as the shorthand class does. -/
def isSpaceChar (c : Char) : Bool :=
  c == ' ' || c == '\t' || c == '\n' || c == '\r' || c == '\x0b' || c == '\x0c'

/-- Characters matched by the word shorthand class. -/
def isWordChar (c : Char) : Bool :=
  c.isAlpha || isDigitChar c || c == '_'

/-- Read one unit inside a character class: an escape or a plain character.
Returns either a concrete character (usable as a range endpoint) or a
shorthand class item. Alphanumeric escapes other than the supported
shorthands are rejected, as the engine rejects unknown escapes. -/
def readClsUnit : List Char → Except String (Sum Char ClsItem × List Char)
  | [] => .error "unterminated character set"
  | '\\' :: rest =>
    match rest with
    | [] => .error "bad escape (end of pattern)"
    | c :: rest2 =>
      if c == 'd' then .ok (.inr .digit, rest2)
      else if c == 'w' then .ok (.inr .word, rest2)
      else if c == 's' then .ok (.inr .space, rest2)
      else if c.isAlpha || isDigitChar c then .error "bad escape"
      else .ok (.inl c, rest2)
  | c :: rest => .ok (.inl c, rest)

/-- View a class unit as a class item. -/
def unitItem : Sum Char ClsItem → ClsItem
  | .inl c => .lit c
  | .inr it => it

/-- Parse the items of a character class up to the closing bracket. The
flag marks the position straight after the opening bracket (and optional
negation), where a closing bracket is a literal member. A dash binds two
concrete endpoints into a range unless it sits straight before the closing
bracket, where it is literal. -/
def parseClsItems : Nat → List Char → Bool → Except String (List ClsItem × List Char)
  | 0, _, _ => .error "character set too deeply nested"
  | _ + 1, [], _ => .error "unterminated character set"
  | fuel + 1, ']' :: rest, first =>
    if first then
      match parseClsItems fuel rest false with
      | .error e => .error e
      | .ok (its, rem) => .ok (.lit ']' :: its, rem)
    else .ok ([], rest)
  | fuel + 1, cs, _ =>
    match readClsUnit cs with
    | .error e => .error e
    | .ok (u, rest) =>
      match rest with
      | '-' :: d :: rest2 =>
        if d == ']' then
          match parseClsItems fuel rest false with
          | .error e => .error e
          | .ok (its, rem) => .ok (unitItem u :: its, rem)
        else
          match readClsUnit (d :: rest2) with
          | .error e => .error e
          | .ok (u2, rest3) =>
            match u, u2 with
            | .inl a, .inl b =>
              if Nat.ble b.toNat a.toNat && !(a == b) then .error "bad character range"
              else
                match parseClsItems fuel rest3 false with
                | .error e => .error e
                | .ok (its, rem) => .ok (.range a b :: its, rem)
            | _, _ => .error "bad character range"
      | ['-'] => .error "unterminated character set"
      | _ =>
        match parseClsItems fuel rest false with
        | .error e => .error e
        | .ok (its, rem) => .ok (unitItem u :: its, rem)

/-- Read a run of ASCII digits as a number, returning none when no digit
is present. -/
def readDigits (cs : List Char) : Option Nat × List Char :=
  let ds := cs.takeWhile isDigitChar
  if ds.isEmpty then (none, cs)
  else (some (ds.foldl (fun a d => a * 10 + (d.toNat - '0'.toNat)) 0),
        cs.dropWhile isDigitChar)

/-- Try to read a counted-repetition suffix starting at an opening brace.
Returns the bounds and the remaining input, or none when the braces do not
form a valid repetition, in which case the brace is a literal. -/
def tryParseRep (cs : List Char) : Option ((Nat × Option Nat) × List Char) :=
  match cs with
  | '\x7b' :: rest =>
    match readDigits rest with
    | (lo?, rest1) =>
      match rest1 with
      | '\x7d' :: rest2 =>
        match lo? with
        | some lo => some ((lo, some lo), rest2)
        | none => none
      | ',' :: rest2 =>
        match readDigits rest2 with
        | (hi?, rest3) =>
          match rest3 with
          | '\x7d' :: rest4 =>
            if lo?.isSome || hi?.isSome then
              some ((lo?.getD 0, hi?), rest4)
            else none
          | _ => none
      | _ => none
  | _ => none

/-- Concatenate a list of patterns. -/
def catList : List Re → Re
  | [] => .eps
  | [r] => r
  | r :: rest => .cat r (catList rest)

/-- Expand an optional chain of at most n further copies of a pattern,
preserving greediness: the greedy chain prefers taking a copy, the lazy
chain prefers stopping. -/
def questChain (greedy : Bool) (r : Re) : Nat → Re
  | 0 => .eps
  | n + 1 =>
    if greedy then .alt (.cat r (questChain greedy r n)) .eps
    else .alt .eps (.cat r (questChain greedy r n))

/-- Expand a counted repetition of a pattern into the core syntax. -/
def expandRep (greedy : Bool) (r : Re) (lo : Nat) (hi : Option Nat) : Except String Re :=
  match hi with
  | none => .ok (catList (List.replicate lo r ++ [.star greedy r]))
  | some h =>
    if h < lo then .error "min repeat greater than maximum"
    else .ok (catList (List.replicate lo r ++ [questChain greedy r (h - lo)]))

/-- Decide whether the input continues with a quantifier, which after an
already-applied quantifier is a repetition error. -/
def startsQuant (cs : List Char) : Bool :=
  match cs with
  | '*' :: _ => true
  | '+' :: _ => true
  | '?' :: _ => true
  | '\x7b' :: _ => (tryParseRep cs).isSome
  | _ => false

/-- Apply at most one quantifier suffix to a parsed atom, reading an
optional lazy marker, and reject a stacked quantifier as the engine does. -/
def applyQuant (a : Re) (cs : List Char) : Except String (Re × List Char) :=
  match cs with
  | '*' :: rest =>
    match rest with
    | '?' :: rest2 =>
      if startsQuant rest2 then .error "multiple repeat" else .ok (.star false a, rest2)
    | _ =>
      if startsQuant rest then .error "multiple repeat" else .ok (.star true a, rest)
  | '+' :: rest =>
    match rest with
    | '?' :: rest2 =>
      if startsQuant rest2 then .error "multiple repeat"
      else .ok (.cat a (.star false a), rest2)
    | _ =>
      if startsQuant rest then .error "multiple repeat"
      else .ok (.cat a (.star true a), rest)
  | '?' :: rest =>
    match rest with
    | '?' :: rest2 =>
      if startsQuant rest2 then .error "multiple repeat" else .ok (.alt .eps a, rest2)
    | _ =>
      if startsQuant rest then .error "multiple repeat" else .ok (.alt a .eps, rest)
  | '\x7b' :: _ =>
    match tryParseRep cs with
    | none => .ok (a, cs)
    | some ((lo, hi), rest) =>
      match rest with
      | '?' :: rest2 =>
        if startsQuant rest2 then .error "multiple repeat"
        else
          match expandRep false a lo hi with
          | .error e => .error e
          | .ok b => .ok (b, rest2)
      | _ =>
        if startsQuant rest then .error "multiple repeat"
        else
          match expandRep true a lo hi with
          | .error e => .error e
          | .ok b => .ok (b, rest)
  | _ => .ok (a, cs)

mutual

/-- Parse an alternation: branches separated by vertical bars. Carries the
next free group number and returns the unconsumed input, which begins with
a closing parenthesis or is empty. -/
def parseAlt : Nat → Nat → List Char → Except String (Re × Nat × List Char)
  | 0, _, _ => .error "pattern too deeply nested"
  | fuel + 1, gn, cs =>
    match parseSeq fuel gn cs with
    | .error e => .error e
    | .ok (r1, gn1, rest1) =>
      match rest1 with
      | '|' :: rest2 =>
        match parseAlt fuel gn1 rest2 with
        | .error e => .error e
        | .ok (r2, gn2, rest3) => .ok (.alt r1 r2, gn2, rest3)
      | _ => .ok (r1, gn1, rest1)

/-- Parse a possibly empty sequence of quantified atoms, stopping at a
vertical bar, a closing parenthesis, or the end of the input. -/
def parseSeq : Nat → Nat → List Char → Except String (Re × Nat × List Char)
  | 0, _, _ => .error "pattern too deeply nested"
  | _ + 1, gn, [] => .ok (.eps, gn, [])
  | _ + 1, gn, ')' :: rest => .ok (.eps, gn, ')' :: rest)
  | _ + 1, gn, '|' :: rest => .ok (.eps, gn, '|' :: rest)
  | fuel + 1, gn, cs =>
    match parseAtom fuel gn cs with
    | .error e => .error e
    | .ok (a, gn1, rest1) =>
      match applyQuant a rest1 with
      | .error e => .error e
      | .ok (aq, rest2) =>
        match parseSeq fuel gn1 rest2 with
        | .error e => .error e
        | .ok (b, gn2, rest3) => .ok (.cat aq b, gn2, rest3)

/-- Parse one atom: a group, a character class, an escape, the dot, an
anchor, or a literal character. A quantifier with nothing before it is an
error; an opening brace that does not begin a valid repetition is a
literal. -/
def parseAtom : Nat → Nat → List Char → Except String (Re × Nat × List Char)
  | 0, _, _ => .error "pattern too deeply nested"
  | _ + 1, _, [] => .error "unexpected end of pattern"
  | fuel + 1, gn, '(' :: rest =>
    match rest with
    | '?' :: ':' :: rest2 =>
      match parseAlt fuel gn rest2 with
      | .error e => .error e
      | .ok (r, gn1, rest3) =>
        match rest3 with
        | ')' :: rest4 => .ok (r, gn1, rest4)
        | _ => .error "missing ), unterminated subpattern"
    | '?' :: _ => .error "unknown extension"
    | _ =>
      match parseAlt fuel (gn + 1) rest with
      | .error e => .error e
      | .ok (r, gn1, rest3) =>
        match rest3 with
        | ')' :: rest4 => .ok (.group gn r, gn1, rest4)
        | _ => .error "missing ), unterminated subpattern"
  | fuel + 1, gn, '[' :: rest =>
    match rest with
    | '^' :: rest1 =>
      match parseClsItems fuel rest1 true with
      | .error e => .error e
      | .ok (its, rem) => .ok (.cls true its, gn, rem)
    | _ =>
      match parseClsItems fuel rest true with
      | .error e => .error e
      | .ok (its, rem) => .ok (.cls false its, gn, rem)
  | _ + 1, gn, '\\' :: rest =>
    match rest with
    | [] => .error "bad escape (end of pattern)"
    | c :: rest2 =>
      if c == 'd' then .ok (.cls false [.digit], gn, rest2)
      else if c == 'D' then .ok (.cls true [.digit], gn, rest2)
      else if c == 'w' then .ok (.cls false [.word], gn, rest2)
      else if c == 'W' then .ok (.cls true [.word], gn, rest2)
      else if c == 's' then .ok (.cls false [.space], gn, rest2)
      else if c == 'S' then .ok (.cls true [.space], gn, rest2)
      else if c.isAlpha || isDigitChar c then .error "bad escape"
      else .ok (.lit c, gn, rest2)
  | _ + 1, gn, '.' :: rest => .ok (.any, gn, rest)
  | _ + 1, gn, '^' :: rest => .ok (.bol, gn, rest)
  | _ + 1, gn, '$' :: rest => .ok (.eol, gn, rest)
  | _ + 1, _, '*' :: _ => .error "nothing to repeat"
  | _ + 1, _, '+' :: _ => .error "nothing to repeat"
  | _ + 1, _, '?' :: _ => .error "nothing to repeat"
  | _ + 1, gn, c :: rest => .ok (.lit c, gn, rest)

end

/-- Compile a pattern string, yielding the abstract syntax or a diagnostic
message, as the engine compiler does. -/
def re_compile (pattern : String) : Except String Re :=
  let cs := pattern.data
  match parseAlt ((cs.length + 4) * 4) 1 cs with
  | .error e => .error e
  | .ok (r, _, []) => .ok r
  | .ok (_, _, ')' :: _) => .error "unbalanced parenthesis"
  | .ok (_, _, _) => .error "internal parse error"

/-- Number of capturing groups of a compiled pattern. -/
def reGroups : Re → Nat
  | .cat a b => max (reGroups a) (reGroups b)
  | .alt a b => max (reGroups a) (reGroups b)
  | .star _ r => reGroups r
  | .group n r => max n (reGroups r)
  | _ => 0

/-- Structural size of a compiled pattern, used for fuel bounds. -/
def reSize : Re → Nat
  | .cat a b => reSize a + reSize b + 1
  | .alt a b => reSize a + reSize b + 1
  | .star _ r => reSize r + 1
  | .group _ r => reSize r + 1
  | _ => 1

/-- Swap the case of an ASCII letter, the identity elsewhere. -/
def swapCase (c : Char) : Char :=
  if c.isLower then c.toUpper else if c.isUpper then c.toLower else c

/-- Decide whether one class item covers a character. -/
def itemMatch : ClsItem → Char → Bool
  | .lit a, c => a == c
  | .range a b, c => Nat.ble a.toNat c.toNat && Nat.ble c.toNat b.toNat
  | .digit, c => isDigitChar c
  | .word, c => isWordChar c
  | .space, c => isSpaceChar c

/-- Decide whether the items of a class cover a character, folding case
when matching case-insensitively. -/
def clsHit (ign : Bool) (items : List ClsItem) (c : Char) : Bool :=
  items.any (fun it => itemMatch it c) ||
    (ign && items.any (fun it => itemMatch it (swapCase c)))

/-- Decide whether a character class matches a character. -/
def clsMatches (ign neg : Bool) (items : List ClsItem) (c : Char) : Bool :=
  if neg then !(clsHit ign items c) else clsHit ign items c

/-- Decide whether a literal pattern character matches an input character,
folding case when matching case-insensitively. -/
def litMatches (ign : Bool) (a c : Char) : Bool :=
  a == c || (ign && (a.toLower == c.toLower))

/-- Group slots of a running match: for each group, the span it last
captured, if any. -/
def GMap : Type := List (Option (Nat × Nat))

/-- The backtracking matcher. Given fuel, a pattern, a position and group
slots, it returns every end state of a match of the pattern starting at
the position, ordered by the preference of the engine: first alternatives
first, greedy repetition preferring longer, lazy preferring shorter. A
repetition body must consume input for its iteration to continue, which
models the handling of empty repetition by the engine. The head of the list is
the match the engine reports. -/
def runM (input : List Char) (ign multi : Bool) :
    Nat → Re → Nat → GMap → List (Nat × GMap)
  | 0, _, _, _ => []
  | _ + 1, .eps, pos, gs => [(pos, gs)]
  | _ + 1, .lit c, pos, gs =>
    match input.get? pos with
    | some d => if litMatches ign c d then [(pos + 1, gs)] else []
    | none => []
  | _ + 1, .any, pos, gs =>
    match input.get? pos with
    | some d => if d == '\n' then [] else [(pos + 1, gs)]
    | none => []
  | _ + 1, .cls neg items, pos, gs =>
    match input.get? pos with
    | some d => if clsMatches ign neg items d then [(pos + 1, gs)] else []
    | none => []
  | _ + 1, .bol, pos, gs =>
    if pos == 0 then [(pos, gs)]
    else if multi && input.get? (pos - 1) == some '\n' then [(pos, gs)]
    else []
  | _ + 1, .eol, pos, gs =>
    if pos == input.length then [(pos, gs)]
    else if input.get? pos == some '\n' && (multi || pos + 1 == input.length) then
      [(pos, gs)]
    else []
  | fuel + 1, .cat a b, pos, gs =>
    (runM input ign multi fuel a pos gs).flatMap
      (fun pg => runM input ign multi fuel b pg.1 pg.2)
  | fuel + 1, .alt a b, pos, gs =>
    runM input ign multi fuel a pos gs ++ runM input ign multi fuel b pos gs
  | fuel + 1, .star greedy r, pos, gs =>
    let iter := (runM input ign multi fuel r pos gs).flatMap
      (fun pg =>
        if pos < pg.1 then runM input ign multi fuel (.star greedy r) pg.1 pg.2
        else [])
    if greedy then iter ++ [(pos, gs)] else (pos, gs) :: iter
  | fuel + 1, .group n r, pos, gs =>
    (runM input ign multi fuel r pos gs).map
      (fun pg => (pg.1, pg.2.set (n - 1) (some (pos, pg.1))))

/-- Fuel bound passed to the matcher; it dominates the recursion
depth on the pattern and input it is called with. -/
def matchFuel (r : Re) (input : List Char) : Nat :=
  (reSize r + input.length + 8) * 8

/-- Run the matcher at one position with fresh group slots and keep the
preferred end state. -/
def runAt (input : List Char) (ign multi : Bool) (r : Re) (pos : Nat) :
    Option (Nat × GMap) :=
  (runM input ign multi (matchFuel r input) r pos (List.replicate (reGroups r) none)).head?

/-- The text of an input span. -/
def sliceStr (input : List Char) (a b : Nat) : String :=
  ((input.drop a).take (b - a)).asString

/-- A reported match: its span, its text, and the text captured by each
group in definition order, none for a group that did not participate. -/
structure SMatch where
  mstart : Nat
  mend : Nat
  whole : String
  groups : List (Option String)
deriving DecidableEq

/-- Build the reported match from an end state of the matcher. -/
def mkMatch (input : List Char) (pos : Nat) (st : Nat × GMap) : SMatch :=
  { mstart := pos
    mend := st.1
    whole := sliceStr input pos st.1
    groups := st.2.map (fun og => og.map (fun ab => sliceStr input ab.1 ab.2)) }

/-- Scan positions left to right from a starting position and report the
first match, as the search of the engine does. -/
def searchAux (input : List Char) (ign multi : Bool) (r : Re) :
    Nat → Nat → Option SMatch
  | 0, _ => none
  | fuel + 1, pos =>
    if input.length < pos then none
    else
      match runAt input ign multi r pos with
      | some st => some (mkMatch input pos st)
      | none => searchAux input ign multi r fuel (pos + 1)

/-- Search a string for the first match of a compiled pattern. -/
def reSearchCompiled (ign multi : Bool) (r : Re) (s : String) : Option SMatch :=
  searchAux s.data ign multi r (s.data.length + 2) 0

/-- Compile a pattern string and search a string for its first match,
with the given case-folding and multi-line flags. -/
def re_search (pattern : String) (ign multi : Bool) (text : String) :
    Option SMatch :=
  match re_compile pattern with
  | .error _ => none
  | .ok r => reSearchCompiled ign multi r text

/-- List every non-overlapping match left to right: scan from the end of
the previous match, stepping one position forward after an empty match,
as the match iteration of the engine does. -/
def finditerAux (input : List Char) (ign multi : Bool) (r : Re) :
    Nat → Nat → List SMatch
  | 0, _ => []
  | fuel + 1, pos =>
    if input.length < pos then []
    else
      match searchAux input ign multi r (input.length + 2) pos with
      | none => []
      | some m =>
        m :: finditerAux input ign multi r fuel
          (if m.mstart < m.mend then m.mend else m.mend + 1)

/-- All non-overlapping matches of a compiled pattern in a string. -/
def finditer (ign multi : Bool) (r : Re) (s : String) : List SMatch :=
  finditerAux s.data ign multi r (s.data.length + 2) 0

/-- One element of the list the find-all operation returns: the whole
match text when the pattern has no group, the text of the single group when it
has one, and the tuple of group texts when it has several; a group that
did not participate contributes the empty string. -/
inductive MatchItem where
  | s (x : String)
  | tup (xs : List String)
deriving DecidableEq

/-- The find-all operation of the engine on a compiled pattern. -/
def findall (ign multi : Bool) (r : Re) (s : String) : List MatchItem :=
  let g := reGroups r
  (finditer ign multi r s).map
    (fun m =>
      if g == 0 then .s m.whole
      else if g == 1 then .s (((m.groups.get? 0).getD none).getD "")
      else .tup (m.groups.map (fun og => og.getD "")))

/-- Compile a pattern string and list every find-all item in a string,
with default flags; an uncompilable pattern yields no items. -/
def re_findall (pattern : String) (text : String) : List MatchItem :=
  match re_compile pattern with
  | .error _ => []
  | .ok r => findall false false r text

/-- Strip the whitespace characters the runtime strips from both ends of a
string. -/
def pyStrip (s : String) : String :=
  (((s.data.dropWhile isSpaceChar).reverse.dropWhile isSpaceChar).reverse).asString

/-- Split a character list at every newline, keeping empty pieces. -/
def splitOnNL : List Char → List (List Char)
  | [] => [[]]
  | '\n' :: rest => [] :: splitOnNL rest
  | c :: rest =>
    match splitOnNL rest with
    | [] => [[c]]
    | h :: t => (c :: h) :: t

/-- Split a string at every newline, as the runtime line split does. -/
def pySplitLines (s : String) : List String :=
  (splitOnNL s.data).map List.asString

/-- Split a character list at whitespace runs, dropping empty pieces,
accumulating the current word reversed. -/
def wordsAux : List Char → List Char → List (List Char)
  | [], acc => if acc.isEmpty then [] else [acc.reverse]
  | c :: rest, acc =>
    if isSpaceChar c then
      if acc.isEmpty then wordsAux rest [] else acc.reverse :: wordsAux rest []
    else wordsAux rest (c :: acc)

/-- Split a string at whitespace runs, as the runtime word split does. -/
def pySplitWS (s : String) : List String :=
  (wordsAux s.data []).map List.asString

/-- Lowercase every character of a string. -/
def pyLower (s : String) : String :=
  (s.data.map Char.toLower).asString

/-- Decide whether one character list occurs as a contiguous segment at the
head of another. -/
def segStarts : List Char → List Char → Bool
  | [], _ => true
  | _ :: _, [] => false
  | a :: as, b :: bs => a == b && segStarts as bs

/-- Decide whether one character list occurs as a contiguous segment
anywhere in another, the substring test of the runtime. -/
def occursIn (needle : List Char) : List Char → Bool
  | [] => needle.isEmpty
  | c :: rest => segStarts needle (c :: rest) || occursIn needle rest

/-- The special characters counted by the heuristic, from the source:
backslash, caret, dollar, dot, star, plus, question mark, both braces,
both brackets, bar and both parentheses. -/
def regexChars : List Char :=
  ['\\', '^', '$', '.', '*', '+', '?', '\x7b', '\x7d', '[', ']', '|', '(', ')']

/-- Check if text looks like a regex pattern: nonempty, at least three
characters, at most two hundred, and holding at least two of the special
characters. -/
def looks_like_regex (text : String) : Bool :=
  if text.isEmpty || text.length < 3 then false
  else
    let regex_char_count := (text.data.filter (fun c => regexChars.contains c)).length
    decide (2 ≤ regex_char_count) && decide (text.length ≤ 200)

/-- Test if the pattern is a valid regex: compilation succeeds. -/
def is_valid_regex (pattern : String) : Bool :=
  match re_compile pattern with
  | .ok _ => true
  | .error _ => false

/-- First line of the reply whose stripped text is nonempty and passes the
heuristic; the first strategy of the cascade returns it unvalidated. -/
def firstRegexLine : List String → Option String
  | [] => none
  | l :: rest =>
    let line := pyStrip l
    if !line.isEmpty && looks_like_regex line then some line else firstRegexLine rest

/-- Strategy one of the cascade: scan the lines of the cleaned reply. -/
def strategy1 (cleaned : String) : Option String :=
  firstRegexLine (pySplitLines cleaned)

/-- The ordered extraction patterns of strategy two, from the source: the
three label forms, two backtick forms, the slash form, lines starting with
a special character, and any run of two special characters followed by
more text. -/
def extraction_patterns : List String :=
  [ "REGEX:\\s*(.+)"
  , "Pattern:\\s*(.+)"
  , "Expression:\\s*(.+)"
  , "`([^`]+)`"
  , "(?:regex)?\\s*`([^`]+)`\\s*"
  , "/([^/]+)/"
  , "^([\\\\^$.*+?\x7b\x7d[\\]|()\\-].+)$"
  , "([\\\\^$.*+?\x7b\x7d[\\]|()\\-]\x7b2,\x7d.+)" ]

/-- Text of the first group of a reported match; the patterns of strategy
two always bind their first group when they match. -/
def group1 (m : SMatch) : String :=
  ((m.groups.get? 0).getD none).getD ""

/-- Walk the extraction patterns in order: search the cleaned reply with
case folding and multi-line flags, strip the first group of the first
match, and accept it when it compiles, else move to the next pattern. -/
def strategy2Aux : List String → String → Option String
  | [], _ => none
  | p :: rest, cleaned =>
    match re_search p true true cleaned with
    | some m =>
      let extracted := pyStrip (group1 m)
      if is_valid_regex extracted then some extracted else strategy2Aux rest cleaned
    | none => strategy2Aux rest cleaned

/-- Strategy two of the cascade: the labelled and delimited forms. -/
def strategy2 (cleaned : String) : Option String :=
  strategy2Aux extraction_patterns cleaned

/-- First of the longest strings of a list, as the runtime maximum with
the length key: a later element replaces the current best only when it is
strictly longer. -/
def pickLongest (ws : List String) : Option String :=
  ws.foldl
    (fun acc w =>
      match acc with
      | none => some w
      | some b => if b.length < w.length then some w else acc)
    none

/-- Strategy three of the cascade: among whitespace-separated words longer
than five characters that pass the heuristic, the longest, ties broken by
first occurrence; returned unvalidated. -/
def strategy3 (cleaned : String) : Option String :=
  let words := pySplitWS cleaned
  let potential_patterns :=
    words.filter (fun w => decide (5 < w.length) && looks_like_regex w)
  pickLongest potential_patterns

/-- The last-resort pattern of strategy four, from the source: a run of at
least three special characters followed by trailing characters that are
neither special nor whitespace. -/
def regex_chars_pattern : String :=
  "[\\\\^$.+?\x7b\x7d[\\]|()\\-]\x7b3,\x7d[^\\\\^$.+?\x7b\x7d[\\]|()\\-\\s]*"

/-- Strategy four of the cascade: the first find-all item of the
last-resort pattern in the cleaned reply, returned unvalidated; the
pattern has no group, so every item is a whole-match string. -/
def strategy4 (cleaned : String) : Option String :=
  match re_findall regex_chars_pattern cleaned with
  | .s x :: _ => some x
  | .tup _ :: _ => none
  | [] => none

/-- The fallback table, from the source, in its iteration order: keyword
to canned pattern. -/
def fallback_patterns : List (String × String) :=
  [ ("email", "^[a-zA-Z0-9._%+-]+@[a-zA-Z0-9.-]+\\.[a-zA-Z]\x7b2,\x7d$")
  , ("phone", "^\\(?[0-9]\x7b3\x7d\\)?[-.\\s]?[0-9]\x7b3\x7d[-.\\s]?[0-9]\x7b4\x7d$")
  , ("url", "https?://(?:[-\\w.])+(?:[:\\d]+)?(?:/(?:[\\w/_.])*(?:\\?(?:[\\w&=%.]*))?(?:#(?:\\w*))?)?")
  , ("ip", "^(?:(?:25[0-5]|2[0-4][0-9]|[01]?[0-9][0-9]?)\\.)\x7b3\x7d(?:25[0-5]|2[0-4][0-9]|[01]?[0-9][0-9]?)$")
  , ("date", "^\\d\x7b1,2\x7d/\\d\x7b1,2\x7d/\\d\x7b4\x7d$")
  , ("time", "^([01]?[0-9]|2[0-3]):[0-5][0-9]$")
  , ("number", "^\\d+$")
  , ("word", "^[a-zA-Z]+$")
  , ("alphanumeric", "^[a-zA-Z0-9]+$") ]

/-- Walk the fallback table in order and return the canned pattern of the
first keyword occurring in the lowercased reply. -/
def findKeyword : List (String × String) → String → Option String
  | [], _ => none
  | kp :: rest, response_lower =>
    if occursIn kp.1.data response_lower.data then some kp.2
    else findKeyword rest response_lower

/-- Generate fallback patterns based on common requests: lowercase the
reply and return the canned pattern of the first table keyword occurring
in it, else the universal pattern. -/
def generate_fallback_pattern (response : String) : String :=
  match findKeyword fallback_patterns (pyLower response) with
  | some p => p
  | none => ".*"

/-- The cascade over the cleaned reply: the five strategies in the order
of the source, each short-circuiting. -/
def extractBody (cleaned : String) : String :=
  match strategy1 cleaned with
  | some line => line
  | none =>
    match strategy2 cleaned with
    | some p => p
    | none =>
      match strategy3 cleaned with
      | some p => p
      | none =>
        match strategy4 cleaned with
        | some p => p
        | none => generate_fallback_pattern cleaned

/-- Enhanced regex pattern extraction from AI response: strip the reply
and run the cascade. -/
def extract_regex_from_response (response : String) : String :=
  extractBody (pyStrip response)

/-- The instance fields of the generator object; the extraction method
reads none of them and writes nothing. -/
structure GenState where
  api_key : String
  base_url : String
  model : String
deriving DecidableEq

/-- The extraction method in state-passing form: the translation of the
method threads the object state through the call and returns it with the
result. -/
def extractStateful (st : GenState) (response : String) : String × GenState :=
  (extract_regex_from_response response, st)

/-- Information the tester reports about a compiled pattern: the pattern
text, the flags display and the number of groups. -/
structure PatternInfo where
  pattern : String
  flags : String
  groups : Nat
deriving DecidableEq

/-- Outcome of the tester, with the fields of the dictionary the source
builds. -/
structure TestResult where
  success : Bool
  error : Option String
  «matches» : List MatchItem
  match_count : Nat
  is_valid : Bool
  pattern_info : Option PatternInfo
deriving DecidableEq

/-- Test regex pattern against a string: compile, report a structured
error on failure, else gather find-all items and match objects, flatten
the participating groups of each match object when the pattern has groups
and the whole text otherwise, and report the detailed list when it is
nonempty, else the find-all list. The function is total: no run raises. -/
def test_regex (pattern : String) (test_string : String) : TestResult :=
  match re_compile pattern with
  | .error e =>
    { success := false
      error := some ("Invalid regex pattern: " ++ e)
      «matches» := []
      match_count := 0
      is_valid := false
      pattern_info := none }
  | .ok compiled_pattern =>
    let «matches» := findall false false compiled_pattern test_string
    let match_objects := finditer false false compiled_pattern test_string
    let detailed_matches := match_objects.foldl
      (fun acc m =>
        if m.groups.isEmpty then acc ++ [m.whole]
        else acc ++ m.groups.filterMap id)
      []
    let final_matches :=
      if detailed_matches.isEmpty then «matches» else detailed_matches.map MatchItem.s
    { success := true
      error := none
      «matches» := final_matches
      match_count := final_matches.length
      is_valid := true
      pattern_info := some ⟨pattern, "None", reGroups compiled_pattern⟩ }

/-- The compiled form of a pattern string, the empty pattern when
compilation fails. -/
def compiledOf (p : String) : Re :=
  match re_compile p with
  | .ok r => r
  | .error _ => .eps

/-- Contribution of one match object to the detailed list of the tester:
its participating groups when the pattern has groups, else its whole
text. -/
def detailOf (m : SMatch) : List String :=
  if m.groups.isEmpty then [m.whole] else m.groups.filterMap id

/-- The accumulator loop of the tester over match objects equals the
flattened per-match contributions. -/
theorem foldl_detail (l : List SMatch) (acc : List String) :
    l.foldl
      (fun a m =>
        if m.groups.isEmpty then a ++ [m.whole] else a ++ m.groups.filterMap id)
      acc
      = acc ++ l.flatMap detailOf := by
  induction l generalizing acc with
  | nil => simp
  | cons x xs ih =>
    simp only [List.foldl_cons, List.flatMap_cons, ih]
    by_cases hx : x.groups.isEmpty = true <;>
      simp [detailOf, hx, List.append_assoc]

/-- Claim C4: for every pattern string that fails to compile and every
sample string, the tester returns an invalid outcome carrying the
nonempty diagnostic of the engine, with an empty match list and count
zero; the embedded tester is a total function, so no run raises. -/
theorem invalid_pattern_test_invalid (p s e : String)
    (h : re_compile p = .error e) :
    (test_regex p s).success = false ∧
    (test_regex p s).error = some ("Invalid regex pattern: " ++ e) ∧
    ("Invalid regex pattern: " ++ e) ≠ "" ∧
    (test_regex p s).«matches» = [] ∧
    (test_regex p s).match_count = 0 ∧
    (test_regex p s).is_valid = false := by
  unfold test_regex
  rw [h]
  refine ⟨rfl, rfl, ?_, rfl, rfl, rfl⟩
  intro hh
  have hlen := congrArg String.length hh
  rw [String.length_append] at hlen
  simp at hlen
  exact (by decide : "Invalid regex pattern: ".length ≠ 0) hlen.1

/-- Claim C4 witness: the pattern of a lone opening parenthesis fails to
compile and testing it yields the invalid outcome. -/
theorem invalid_pattern_test_invalid_witness :
    re_compile "(" = .error "missing ), unterminated subpattern" ∧
    ((test_regex "(" "anything").success = false ∧
     (test_regex "(" "anything").error =
       some ("Invalid regex pattern: " ++ "missing ), unterminated subpattern") ∧
     ("Invalid regex pattern: " ++ "missing ), unterminated subpattern") ≠ "" ∧
     (test_regex "(" "anything").«matches» = [] ∧
     (test_regex "(" "anything").match_count = 0 ∧
     (test_regex "(" "anything").is_valid = false) :=
  ⟨rfl, invalid_pattern_test_invalid "(" "anything"
    "missing ), unterminated subpattern" rfl⟩

/-- Claim C8: testing the digit-run pattern against the sample yields a
valid outcome with exactly the two digit runs in order and count two. -/
theorem digits_scenario :
    (test_regex "[0-9]+" "abc123def456").success = true ∧
    (test_regex "[0-9]+" "abc123def456").«matches» =
      [MatchItem.s "123", MatchItem.s "456"] ∧
    (test_regex "[0-9]+" "abc123def456").match_count = 2 ∧
    (test_regex "[0-9]+" "abc123def456").is_valid = true :=
  ⟨rfl, rfl, rfl, rfl⟩

/-- Claim C9: extraction is deterministic and side-effect free. In the
state-passing translation of the method, the object state is returned
unchanged, a second invocation on the state left by the first yields the
same output, and the output does not depend on the state at all. -/
theorem extract_pure_deterministic (st : GenState) (r : String) :
    (extractStateful st r).2 = st ∧
    (extractStateful ((extractStateful st r).2) r).1 = (extractStateful st r).1 ∧
    ∀ st2 : GenState, (extractStateful st2 r).1 = (extractStateful st r).1 :=
  ⟨rfl, rfl, fun _ => rfl⟩

/-- Claim C10: in every outcome of the tester the reported count equals
the length of the reported match list. -/
theorem match_count_consistent (p s : String) :
    (test_regex p s).match_count = (test_regex p s).«matches».length := by
  unfold test_regex
  cases h : re_compile p <;> rfl

/-- Claim C1 counterexample: the reply holding one line with the label
REGEX: and the compilable pattern of one-or-more letters a is returned
whole, label included, because the heuristic line strategy runs before
the labelled strategy and the line holds three special characters. -/
theorem labeled_line_not_priority_cex :
    extract_regex_from_response "REGEX: ^a+$" = "REGEX: ^a+$" ∧
    is_valid_regex "^a+$" = true ∧
    "REGEX: ^a+$" ≠ "^a+$" :=
  ⟨rfl, rfl, by decide⟩

/-- Claim C1 as amended: when no stripped line of the reply passes the
heuristic line check, which runs first, and the whole-text search for the
label REGEX: finds a match whose first group, trimmed, compiles, the
extraction returns exactly that trimmed text. -/
theorem labeled_line_after_heuristic (r : String) (m : SMatch)
    (h1 : strategy1 (pyStrip r) = none)
    (h2 : re_search "REGEX:\\s*(.+)" true true (pyStrip r) = some m)
    (h3 : is_valid_regex (pyStrip (group1 m)) = true) :
    extract_regex_from_response r = pyStrip (group1 m) := by
  have hs2 : strategy2 (pyStrip r) = some (pyStrip (group1 m)) := by
    unfold strategy2 extraction_patterns strategy2Aux
    rw [h2]
    simp [h3]
  unfold extract_regex_from_response extractBody
  rw [h1, hs2]

/-- Claim C1 witness: a reply whose only line fails the heuristic check
but carries the label REGEX: followed by a compilable word. -/
theorem labeled_line_after_heuristic_witness :
    strategy1 (pyStrip "REGEX: hello") = none ∧
    re_search "REGEX:\\s*(.+)" true true (pyStrip "REGEX: hello") =
      some ⟨0, 12, "REGEX: hello", [some "hello"]⟩ ∧
    is_valid_regex "hello" = true ∧
    extract_regex_from_response "REGEX: hello" = "hello" :=
  ⟨rfl, rfl, rfl,
    labeled_line_after_heuristic "REGEX: hello"
      ⟨0, 12, "REGEX: hello", [some "hello"]⟩ rfl rfl rfl⟩

/-- Claim C2 counterexample: a reply of three opening parentheses is
returned as found by the heuristic line strategy although it does not
compile, so a found result reached the caller without compiling. -/
theorem found_without_compile_cex :
    extract_regex_from_response "(((" = "(((" ∧
    "(((" ≠ "Could not extract regex pattern" ∧
    is_valid_regex "(((" = false :=
  ⟨rfl, by decide, rfl⟩

/-- Claim C2 as amended: only candidates of the labelled and delimited
strategy are compile-checked; a line accepted by the heuristic line
strategy is returned unvalidated, so the extraction can return a string
that does not compile. -/
theorem heuristic_line_skips_validation (r l : String)
    (h1 : strategy1 (pyStrip r) = some l)
    (h2 : is_valid_regex l = false) :
    extract_regex_from_response r = l ∧
    is_valid_regex (extract_regex_from_response r) = false := by
  have he : extract_regex_from_response r = l := by
    unfold extract_regex_from_response extractBody
    rw [h1]
  exact ⟨he, he ▸ h2⟩

/-- Claim C2 witness: the three opening parentheses pass the heuristic
line check and come back from the extraction although invalid. -/
theorem heuristic_line_skips_validation_witness :
    strategy1 (pyStrip "(((") = some "(((" ∧
    is_valid_regex "(((" = false ∧
    (extract_regex_from_response "(((" = "(((" ∧
     is_valid_regex (extract_regex_from_response "(((") = false) :=
  ⟨rfl, rfl, heuristic_line_skips_validation "(((" "(((" rfl rfl⟩

/-- Claim C3 counterexample: on the empty reply the extraction returns
the universal pattern, not the sentinel string. -/
theorem empty_reply_cex :
    extract_regex_from_response "" = ".*" ∧
    (".*" : String) ≠ "Could not extract regex pattern" :=
  ⟨rfl, by decide⟩

/-- Claim C3 as amended: for every empty or whitespace-only reply no
strategy matches and the cascade ends in the catch-all, which in this
code is the universal pattern rather than the sentinel string. -/
theorem empty_reply_returns_catchall (r : String) (h : pyStrip r = "") :
    extract_regex_from_response r = ".*" := by
  unfold extract_regex_from_response
  rw [h]
  rfl

/-- Claim C3 witness: a whitespace-only reply strips to the empty string
and the extraction returns the universal pattern. -/
theorem empty_reply_returns_catchall_witness :
    pyStrip " \n\t " = "" ∧ extract_regex_from_response " \n\t " = ".*" :=
  ⟨rfl, empty_reply_returns_catchall " \n\t " rfl⟩

/-- Claim C5 counterexample: the reply suggesting a slash-delimited
social-security pattern is returned whole by the heuristic line strategy,
not reduced to the delimited token. -/
theorem ssn_delimited_cex :
    extract_regex_from_response
      "I think you want something like /\\d\x7b3\x7d-\\d\x7b2\x7d-\\d\x7b4\x7d/ for SSNs" =
      "I think you want something like /\\d\x7b3\x7d-\\d\x7b2\x7d-\\d\x7b4\x7d/ for SSNs" ∧
    "I think you want something like /\\d\x7b3\x7d-\\d\x7b2\x7d-\\d\x7b4\x7d/ for SSNs" ≠
      "\\d\x7b3\x7d-\\d\x7b2\x7d-\\d\x7b4\x7d" :=
  ⟨rfl, by decide⟩

/-- Claim C5 as amended: on that reply the extraction returns the entire
line, because the line holds enough special characters to pass the
heuristic line check, which runs before the delimited-token search. -/
theorem ssn_reply_returns_whole_line :
    extract_regex_from_response
      "I think you want something like /\\d\x7b3\x7d-\\d\x7b2\x7d-\\d\x7b4\x7d/ for SSNs" =
      "I think you want something like /\\d\x7b3\x7d-\\d\x7b2\x7d-\\d\x7b4\x7d/ for SSNs" :=
  rfl

/-- Claim C6 counterexample: on a pattern with one capturing group in an
alternative that can match without it, the occurrence contributes nothing
to the detailed list and the tester falls back to the find-all list,
reporting the empty string instead of the whole occurrence text. -/
theorem group_rule_cex :
    (test_regex "(a)|b" "b").«matches» = [MatchItem.s ""] ∧
    (test_regex "(a)|b" "b").match_count = 1 ∧
    (test_regex "(a)|b" "b").«matches» ≠ [MatchItem.s "b"] :=
  ⟨rfl, rfl, by decide⟩

/-- Claim C6 as amended: for a compilable pattern, each occurrence
contributes its participating groups when the pattern has groups, whether
or not any participated, and its whole text otherwise; when this detailed
list is empty the tester reports the find-all list instead. -/
theorem match_extraction_rule (p s : String)
    (h : re_compile p = .ok (compiledOf p)) :
    (test_regex p s).success = true ∧
    (test_regex p s).«matches» =
      (if ((finditer false false (compiledOf p) s).flatMap detailOf).isEmpty
       then findall false false (compiledOf p) s
       else ((finditer false false (compiledOf p) s).flatMap detailOf).map
         MatchItem.s) := by
  have key := foldl_detail (finditer false false (compiledOf p) s) []
  rw [List.nil_append] at key
  have hm : (test_regex p s).«matches» =
      (if ((finditer false false (compiledOf p) s).foldl
            (fun a m =>
              if m.groups.isEmpty then a ++ [m.whole]
              else a ++ m.groups.filterMap id)
            []).isEmpty
       then findall false false (compiledOf p) s
       else ((finditer false false (compiledOf p) s).foldl
            (fun a m =>
              if m.groups.isEmpty then a ++ [m.whole]
              else a ++ m.groups.filterMap id)
            []).map MatchItem.s) := by
    unfold test_regex
    rw [h]
  have hs : (test_regex p s).success = true := by
    unfold test_regex
    rw [h]
  rw [key] at hm
  exact ⟨hs, hm⟩

/-- Claim C6 witness: the alternative pattern with one group on the
sample where the group does not participate. -/
theorem match_extraction_rule_witness :
    re_compile "(a)|b" = .ok (compiledOf "(a)|b") ∧
    ((test_regex "(a)|b" "b").success = true ∧
     (test_regex "(a)|b" "b").«matches» =
       (if ((finditer false false (compiledOf "(a)|b") "b").flatMap detailOf).isEmpty
        then findall false false (compiledOf "(a)|b") "b"
        else ((finditer false false (compiledOf "(a)|b") "b").flatMap detailOf).map
          MatchItem.s)) :=
  ⟨rfl, match_extraction_rule "(a)|b" "b" rfl⟩

/-- Claim C7: when no strategy of the cascade produces a candidate and
the lowercased reply holds the keyword email, the extraction returns the
canned email pattern, the first entry of the fallback table. -/
theorem email_fallback (r : String)
    (h1 : strategy1 (pyStrip r) = none)
    (h2 : strategy2 (pyStrip r) = none)
    (h3 : strategy3 (pyStrip r) = none)
    (h4 : strategy4 (pyStrip r) = none)
    (h5 : occursIn "email".data (pyLower (pyStrip r)).data = true) :
    extract_regex_from_response r =
      "^[a-zA-Z0-9._%+-]+@[a-zA-Z0-9.-]+\\.[a-zA-Z]\x7b2,\x7d$" := by
  unfold extract_regex_from_response extractBody
  rw [h1, h2, h3, h4]
  unfold generate_fallback_pattern fallback_patterns findKeyword
  rw [h5]
  rfl

/-- Claim C7 witness: the reply naming email addresses with no special
characters falls through every strategy to the keyword fallback. -/
theorem email_fallback_witness :
    strategy1 (pyStrip "Sure, here\x27s a pattern for matching email addresses in your text.") = none ∧
    strategy2 (pyStrip "Sure, here\x27s a pattern for matching email addresses in your text.") = none ∧
    strategy3 (pyStrip "Sure, here\x27s a pattern for matching email addresses in your text.") = none ∧
    strategy4 (pyStrip "Sure, here\x27s a pattern for matching email addresses in your text.") = none ∧
    occursIn "email".data
      (pyLower (pyStrip "Sure, here\x27s a pattern for matching email addresses in your text.")).data = true ∧
    extract_regex_from_response
      "Sure, here\x27s a pattern for matching email addresses in your text." =
      "^[a-zA-Z0-9._%+-]+@[a-zA-Z0-9.-]+\\.[a-zA-Z]\x7b2,\x7d$" :=
  ⟨rfl, rfl, rfl, rfl, rfl,
    email_fallback "Sure, here\x27s a pattern for matching email addresses in your text."
      rfl rfl rfl rfl rfl⟩

end SmartRegex
